import Mathlib

/-!
Shallow embedding of the preview-process orchestrator of the `vorbyte`
repository, together with proofs settling the frozen claims C1..C10.

The orchestrator exists in three variants in the sources:
* `previewManager.ts`, primary section (referred to as `PM` below):
  log capacity 400, probe timeout 2000 ms, inter-attempt delay 500 ms,
  readiness timeout 60 s, exit listener that moves the state to `stopped`.
* `previewManager.ts`, second section (referred to as `PM2`):
  log capacity 900, probe timeout 2500 ms, delay 650 ms, timeout 180 s,
  exit listener that moves the state to `error` with a 120-line log tail.
* `ollama.ts` preview section (referred to as `OL`): log capacity 800,
  probe timeout 2500 ms, delay 650 ms, timeout 180 s, exit listener that
  moves the state to `error` (guarded by starting/running, no log tail).

File-system, network and child-process outcomes are passed in explicitly
(as `Bool` / `Except` / function-valued environment fields), so every
definition is executable and every JavaScript `throw` / promise rejection
is an `Except.error`.
-/

set_option linter.unusedVariables false

namespace Vorbyte

/-- The state of a preview instance: `stopped | starting | running | error`. -/
inductive PMState
  | stopped
  | starting
  | running
  | error
deriving DecidableEq, Repr

/-- The three supported package managers. -/
inductive PackageManager
  | pnpm
  | npm
  | yarn
deriving DecidableEq, Repr

/-- Name of a package manager as used on the command line. -/
def pmName : PackageManager → String
  | .pnpm => "pnpm"
  | .npm => "npm"
  | .yarn => "yarn"

/-- Model of a Node `ChildProcessWithoutNullStreams` handle: its pid and the
`killed` flag (which Node sets once a signal was successfully sent via
`kill()`, not when the process exits). -/
structure ChildProc where
  pid : Option Nat
  killed : Bool
deriving DecidableEq, Repr

/-- The in-memory `Instance` record of the preview manager (one per project
path).  The optional `exited` flag exists only in the `PM2`/`OL` variants; the
primary variant simply never reads it. -/
structure Instance where
  projectPath : String
  state : PMState
  host : String
  port : Option Nat := none
  url : Option String := none
  pid : Option Nat := none
  startedAt : Option String := none
  error : Option String := none
  proc : Option ChildProc := none
  logs : List String := []
  exited : Bool := false
deriving DecidableEq, Repr

/-- The `PreviewStatus` snapshot returned over the public API. -/
structure PreviewStatus where
  projectPath : String
  state : PMState
  host : Option String := none
  port : Option Nat := none
  url : Option String := none
  pid : Option Nat := none
  startedAt : Option String := none
  error : Option String := none
  lastLog : Option String := none
deriving DecidableEq, Repr

/-- `toStatus` from the source: projects an `Instance` to its snapshot;
`lastLog` is the last buffered log line when the buffer is nonempty. -/
def toStatus (inst : Instance) : PreviewStatus :=
  { projectPath := inst.projectPath
    state := inst.state
    host := some inst.host
    port := inst.port
    url := inst.url
    pid := inst.pid
    startedAt := inst.startedAt
    error := inst.error
    lastLog := inst.logs.getLast? }

/-- Log-buffer capacity of the primary `previewManager.ts` variant. -/
def MAX_LOG_LINES_PM : Nat := 400

/-- Log-buffer capacity of the second `previewManager.ts` variant. -/
def MAX_LOG_LINES_PM2 : Nat := 900

/-- Log-buffer capacity of the `ollama.ts` variant. -/
def MAX_LOG_LINES_OL : Nat := 800

/-- The ring-buffer step of `pushLogLine`: push the line, then
`splice(0, length - cap)` (drop the oldest lines) whenever the buffer
exceeds the capacity `cap`. -/
def pushLogList (cap : Nat) (logs : List String) (line : String) : List String :=
  let l := logs ++ [line]
  if cap < l.length then l.drop (l.length - cap) else l

/-- `pushLogLine` of the primary variant, lifted to the instance. -/
def pushPM (inst : Instance) (line : String) : Instance :=
  { inst with logs := pushLogList MAX_LOG_LINES_PM inst.logs line }

/-- `pushLogLine` of the second `previewManager.ts` variant. -/
def pushPM2 (inst : Instance) (line : String) : Instance :=
  { inst with logs := pushLogList MAX_LOG_LINES_PM2 inst.logs line }

/-- `pushLogLine` of the `ollama.ts` variant (the log-buffer part; the
readiness-line detection resolves a promise and does not touch the buffer). -/
def pushOL (inst : Instance) (line : String) : Instance :=
  { inst with logs := pushLogList MAX_LOG_LINES_OL inst.logs line }

/-- JavaScript `Array.prototype.slice(start)` on a list of log lines:
a negative start counts from the end (clamped at 0), a non-negative start
drops that many elements from the front (clamped at the length). -/
def jsSlice (l : List String) (start : Int) : List String :=
  if start < 0 then l.drop (l.length - min start.natAbs l.length)
  else l.drop (min start.toNat l.length)

/-- Availability / lockfile environment consumed by `detectPackageManager`:
which executables answer `--version` with exit code 0, and which lockfiles
exist in the project directory. -/
structure PMEnv where
  hasPnpm : Bool
  hasNpm : Bool
  hasYarn : Bool
  lockPnpm : Bool
  lockNpm : Bool
  lockYarn : Bool
deriving DecidableEq, Repr

/-- The error message thrown by the primary variant when no package manager
executable is available. -/
def noPmMsg : String :=
  "No package manager found. Install pnpm (recommended) or Node.js (npm) so VorByte can run the preview server."

/-- Whether the given package manager executable is available. -/
def hasPm (e : PMEnv) : PackageManager → Bool
  | .pnpm => e.hasPnpm
  | .npm => e.hasNpm
  | .yarn => e.hasYarn

/-- The ordered lockfile preference list built by `detectPackageManager`:
`pnpm-lock.yaml`, then `package-lock.json`, then `yarn.lock`. -/
def preferredList (e : PMEnv) : List PackageManager :=
  (if e.lockPnpm then [PackageManager.pnpm] else []) ++
  (if e.lockNpm then [PackageManager.npm] else []) ++
  (if e.lockYarn then [PackageManager.yarn] else [])

/-- The availability fallback chain of `detectPackageManager`:
pnpm, then npm, then yarn; throws when none is available. -/
def availFallback (e : PMEnv) : Except String PackageManager :=
  if e.hasPnpm then .ok .pnpm
  else if e.hasNpm then .ok .npm
  else if e.hasYarn then .ok .yarn
  else .error noPmMsg

/-- `detectPackageManager` from the source: the lockfile preference list,
then the first preferred manager whose executable is available, then the
fixed availability fallback; a `throw` is an `Except.error`. -/
def detectPackageManager (e : PMEnv) : Except String PackageManager :=
  let preferred := preferredList e
  if preferred.isEmpty then availFallback e
  else
    match preferred.find? (fun pm => hasPm e pm) with
    | some pm => .ok pm
    | none => availFallback e

/-- `detect` as the spec describes it: the first available manager in the
list `preferred ++ [pnpm, npm, yarn]`, failing when none of the three
executables is available. -/
def detectPackageManagerSpec (e : PMEnv) : Except String PackageManager :=
  match (preferredList e ++ [PackageManager.pnpm, PackageManager.npm, PackageManager.yarn]).find?
      (fun pm => hasPm e pm) with
  | some pm => .ok pm
  | none => .error noPmMsg

/-- The bounded port scan of `findFreePort`: starting at `p`, try `n` ports
in ascending order, returning the first one reported free. -/
def scanPorts (free : Nat → Bool) : Nat → Nat → Option Nat
  | _, 0 => none
  | p, Nat.succ n => if free p then some p else scanPorts free (p + 1) n

/-- `findFreePort` from the source: probe `preferred .. preferred+49` in
order (bind-then-release, abstracted by `free`), and otherwise fall back via
bind-to-port-0, whose outcome (OS-granted port or rejection) is `osPort`. -/
def findFreePort (free : Nat → Bool) (osPort : Except String Nat) (preferred : Nat) :
    Except String Nat :=
  match scanPorts free preferred 50 with
  | some p => .ok p
  | none => osPort

/-- Outcome of a single `httpProbe` GET attempt. -/
inductive ProbeOutcome
  | response (status : Nat)
  | timedOut
  | connRefused
  | invalidUrl
deriving DecidableEq, Repr

/-- `httpProbe` resolves `true` on any HTTP response (any status code) and
`false` on a per-attempt timeout, a connection error, or an invalid URL — it
never rejects (it is a total function into `Bool`). -/
def httpProbeResult : ProbeOutcome → Bool
  | .response _ => true
  | .timedOut => false
  | .connRefused => false
  | .invalidUrl => false

/-- Per-attempt timeout of `httpProbe` in the primary variant (ms). -/
def HTTP_PROBE_TIMEOUT_PM : Nat := 2000

/-- Per-attempt timeout of `httpProbe` in the `PM2`/`OL` variants (ms). -/
def HTTP_PROBE_TIMEOUT_OL : Nat := 2500

/-- Inter-attempt delay of `waitForServerReady` in the primary variant (ms). -/
def READY_DELAY_PM : Nat := 500

/-- Inter-attempt delay of `waitForServerReady` in the `PM2`/`OL` variants (ms). -/
def READY_DELAY_OL : Nat := 650

/-- Readiness timeout the primary variant passes to `waitForServerReady`
(and also that function's own default), in ms. -/
def DEFAULT_READY_TIMEOUT_PM : Nat := 60000

/-- `DEFAULT_READY_TIMEOUT_MS` of the `PM2`/`OL` variants, in ms. -/
def DEFAULT_READY_TIMEOUT_OL : Nat := 180000

/-- The probe loop of the `OL`/`PM2` `waitForServerReady`, discretized:
iteration `i` starts at elapsed time `t`; while `t < timeoutMs` it first
checks the owning instance's `exited` flag (returning `false` when set),
then probes (`probe i`, returning `true` on a response), then sleeps the
inter-attempt delay; `dur i` is the duration of the i-th probe attempt.
`fuel` is a structural bound never reached when chosen above
`timeoutMs / delay`. -/
def waitLoopOL (exitedAt probe : Nat → Bool) (dur : Nat → Nat) (timeoutMs : Nat) :
    Nat → Nat → Nat → Bool
  | 0, _, _ => false
  | Nat.succ fuel, i, t =>
    if t < timeoutMs then
      if exitedAt i then false
      else if probe i then true
      else waitLoopOL exitedAt probe dur timeoutMs fuel (i + 1) (t + dur i + READY_DELAY_OL)
    else false

/-- `waitForServerReady` of the `OL`/`PM2` variants at its default 180 s
timeout. -/
def waitForServerReadyOL (exitedAt probe : Nat → Bool) (dur : Nat → Nat) : Bool :=
  waitLoopOL exitedAt probe dur DEFAULT_READY_TIMEOUT_OL (DEFAULT_READY_TIMEOUT_OL + 1) 0 0

/-- The probe loop of the primary `waitForServerReady`: same shape but with a
500 ms delay and no consultation of any `exited` flag (the primary `Instance`
does not even have that field). -/
def waitLoopPM (probe : Nat → Bool) (dur : Nat → Nat) (timeoutMs : Nat) :
    Nat → Nat → Nat → Bool
  | 0, _, _ => false
  | Nat.succ fuel, i, t =>
    if t < timeoutMs then
      if probe i then true
      else waitLoopPM probe dur timeoutMs fuel (i + 1) (t + dur i + READY_DELAY_PM)
    else false

/-- The primary `waitForServerReady` at the 60 s timeout `start` passes it. -/
def waitForServerReadyPM (probe : Nat → Bool) (dur : Nat → Nat) : Bool :=
  waitLoopPM probe dur DEFAULT_READY_TIMEOUT_PM (DEFAULT_READY_TIMEOUT_PM + 1) 0 0

/-- Render `code ?? "n/a"` for an exit code. -/
def codeStr : Option Int → String
  | some c => toString c
  | none => "n/a"

/-- Render `signal ?? "n/a"` for an exit signal. -/
def sigStr : Option String → String
  | some s => s
  | none => "n/a"

/-- The `exit` listener registered by the primary `start`
(`previewManager.ts` lines 371-377): if the process exits while the state is
`running` or `starting`, set the state to `stopped` and append a log line
embedding the exit code/signal; the `error` field is not touched. -/
def exitListenerPM (code : Option Int) (signal : Option String) (inst : Instance) : Instance :=
  if inst.state = PMState.running ∨ inst.state = PMState.starting then
    pushPM { inst with state := PMState.stopped }
      ("■ Preview server exited (code=" ++ codeStr code ++ " signal=" ++ sigStr signal ++ ")")
  else inst

/-- The `exit` listener of the second `previewManager.ts` variant
(lines 879-886): unconditionally set `exited`, move to `error`, and store a
message embedding the exit code/signal plus the tail of the last 120 log
lines (`logs.slice(-120).join("\n")`). -/
def exitListenerPM2 (code : Option Int) (signal : Option String) (inst : Instance) : Instance :=
  let inst1 : Instance := { inst with exited := true, state := PMState.error }
  let tail := String.intercalate "\n" (inst1.logs.rtake 120)
  let inst2 : Instance :=
    { inst1 with error := some ("Preview server exited early (code=" ++ codeStr code ++
        " signal=" ++ sigStr signal ++ ").\n\nLast logs:\n" ++ tail) }
  pushPM2 inst2 "✖ Preview server exited early."

/-- The `exit` listener of the `ollama.ts` variant (lines 708-717): set
`exited`; if the state is `running` or `starting`, move to `error` with a
message embedding the exit code/signal (no log tail); otherwise only append
an informational log line. -/
def exitListenerOL (code : Option Int) (signal : Option String) (inst : Instance) : Instance :=
  let inst1 : Instance := { inst with exited := true }
  if inst1.state = PMState.running ∨ inst1.state = PMState.starting then
    let msg := "Preview server exited early (code=" ++ codeStr code ++
      " signal=" ++ sigStr signal ++ ")."
    pushOL { inst1 with state := PMState.error, error := some msg } ("✖ " ++ msg)
  else
    pushOL inst1
      ("■ Preview server exited (code=" ++ codeStr code ++ " signal=" ++ sigStr signal ++ ")")

/-- The registry: the manager's `Map` of resolved project path to instance,
modelled as an association list. -/
def Registry := List (String × Instance)

/-- `Map.get` on the registry. -/
def getInst (reg : Registry) (key : String) : Option Instance :=
  match reg with
  | [] => none
  | (k, i) :: rest => if k = key then some i else getInst rest key

/-- `Map.set` on the registry (replaces an existing binding in place). -/
def setInst (reg : Registry) (key : String) (inst : Instance) : Registry :=
  match reg with
  | [] => [(key, inst)]
  | (k, i) :: rest => if k = key then (key, inst) :: rest else (k, i) :: setInst rest key inst

/-- `status(projectPath)` of all three variants: resolve the path, and return
either the instance snapshot or the stopped default; a pure read of the
in-memory registry (no file-system or network input occurs in its type). -/
def statusPM (reg : Registry) (resolve : String → String) (projectPath : String) :
    PreviewStatus :=
  let key := resolve projectPath
  match getInst reg key with
  | none => { projectPath := key, state := PMState.stopped }
  | some inst => toStatus inst

/-- `logs(projectPath, opts)` of the primary variant: default tail 200, empty
result for `tail <= 0`, otherwise `logs.slice(-tail)`. -/
def logsPM (reg : Registry) (resolve : String → String) (projectPath : String)
    (tailOpt : Option Int) : List String :=
  match getInst reg (resolve projectPath) with
  | none => []
  | some inst =>
    let tail := tailOpt.getD 200
    if tail ≤ 0 then [] else jsSlice inst.logs (-tail)

/-- `logs` of the second `previewManager.ts` variant: default tail 250 and
NO `tail <= 0` guard — it returns `logs.slice(-tail)` unconditionally. -/
def logsPM2 (reg : Registry) (resolve : String → String) (projectPath : String)
    (tailOpt : Option Int) : List String :=
  match getInst reg (resolve projectPath) with
  | none => []
  | some inst =>
    let tail := tailOpt.getD 250
    jsSlice inst.logs (-tail)

/-- `logs` of the `ollama.ts` variant: default tail 250, with the
`tail <= 0` guard. -/
def logsOL (reg : Registry) (resolve : String → String) (projectPath : String)
    (tailOpt : Option Int) : List String :=
  match getInst reg (resolve projectPath) with
  | none => []
  | some inst =>
    let tail := tailOpt.getD 250
    if tail ≤ 0 then [] else jsSlice inst.logs (-tail)

/-- Externally visible actions taken by `start` / `stop`, recorded as a
trace so that "no second process was spawned" and "no signal was sent" are
provable statements. -/
inductive Effect
  | sigterm
  | graceWait (ms : Nat)
  | sigkill
  | ranInstall (cmd : String)
  | spawned (cmd : String) (args : List String)
deriving DecidableEq, Repr

/-- Grace period of `killProcessTree` in the primary variant (ms). -/
def STOP_GRACE_MS_PM : Nat := 1500

/-- Grace period of `killProcessTree` in the `PM2`/`OL` variants (ms). -/
def STOP_GRACE_MS_OL : Nat := 1600

/-- Whether the SIGTERM / SIGKILL sends succeed (a successful
`proc.kill(sig)` sets the handle's `killed` flag; a failure is swallowed by
the surrounding `try`). -/
structure KillEnv where
  termSendOk : Bool
  killSendOk : Bool
deriving DecidableEq, Repr

/-- `killProcessTree` of the primary variant: no-op when `killed` is already
set; otherwise attempt SIGTERM, wait the 1500 ms grace period, and attempt
SIGKILL exactly when the `killed` flag is still unset (that is, when the
SIGTERM send failed — the flag records signal delivery, not process exit). -/
def killProcessTree (e : KillEnv) (proc : ChildProc) : ChildProc × List Effect :=
  if proc.killed then (proc, [])
  else
    let p1 := if e.termSendOk then { proc with killed := true } else proc
    if p1.killed then (p1, [Effect.sigterm, Effect.graceWait STOP_GRACE_MS_PM])
    else
      let p2 := if e.killSendOk then { p1 with killed := true } else p1
      (p2, [Effect.sigterm, Effect.graceWait STOP_GRACE_MS_PM, Effect.sigkill])

/-- The shared "kill the old process and clear the handle" step of `start`
and `stop`: runs `killProcessTree` only when a live (not `killed`) handle
exists, then clears `proc` and `pid`. -/
def killStep (e : KillEnv) (inst : Instance) : Instance × List Effect :=
  match inst.proc with
  | some proc =>
    if proc.killed then (inst, [])
    else
      let pe := killProcessTree e proc
      ({ inst with proc := none, pid := none }, pe.2)
  | none => (inst, [])

/-- `stop(projectPath)` of the primary variant: `false` (and no action) when
no instance is registered; otherwise kill a live process if present, clear
handle and pid, set the state to `stopped`, clear `error`, push the stop log
line, and return `true`. -/
def stopPM (e : KillEnv) (resolve : String → String) (reg : Registry)
    (projectPath : String) : Bool × Registry × List Effect :=
  let key := resolve projectPath
  match getInst reg key with
  | none => (false, reg, [])
  | some inst =>
    let s := killStep e inst
    let inst2 := pushPM { s.1 with state := PMState.stopped, error := none } "■ Preview stopped"
    (true, setInst reg key inst2, s.2)

/-- Result of an external command run by `runCommandCapture`: the
stdout/stderr lines it streams, and either an `error`-event message or an
exit code. -/
structure CmdResult where
  output : List String
  exit : Except String Int
deriving Repr

/-- `runCommandCapture` of the primary variant: log the command line, stream
the output into the buffer, and reject (returning the error message) on an
`error` event or a non-zero exit code. -/
def runCommandCapture (inst : Instance) (cmd : String) (args : List String)
    (r : CmdResult) : Instance × Option String :=
  let inst1 := pushPM inst ("▶ " ++ cmd ++ " " ++ String.intercalate " " args)
  let inst2 := r.output.foldl pushPM inst1
  match r.exit with
  | .error msg => (pushPM inst2 ("✖ " ++ msg), some msg)
  | .ok code =>
    if code = 0 then (inst2, none)
    else
      let msg := cmd ++ " " ++ String.intercalate " " args ++ " exited with code " ++ toString code
      (pushPM inst2 ("✖ " ++ msg), some msg)

/-- Environment of one `start(projectPath, options)` call: the canonicalizer
(`path.resolve`), the clock, and the outcome of every file-system /
process / network interaction the pipeline performs. -/
structure StartEnv where
  resolve : String → String
  now : String
  hasPackageJson : Bool
  kill : KillEnv
  portFree : Nat → Bool
  osPort : Except String Nat
  pmEnv : PMEnv
  hasNodeModules : Bool
  installCmd : CmdResult
  spawnResult : Except String Nat
  ready : Bool

/-- `PreviewStartOptions` from the source. -/
structure PreviewStartOptions where
  projectPath : String
  host : Option String := none
  port : Option Nat := none
  autoInstallDeps : Option Bool := none

/-- `ensureDeps` of the primary variant: a no-op when `node_modules` exists;
otherwise log the install banner and run the package manager's `install`
through `runCommandCapture`. -/
def ensureDeps (env : StartEnv) (inst : Instance) (pm : PackageManager) :
    Instance × Option String × List Effect :=
  if env.hasNodeModules then (inst, none, [])
  else
    let inst1 := pushPM inst "📦 Installing dependencies (first run)…"
    let rc := runCommandCapture inst1 (pmName pm) ["install"] env.installCmd
    (rc.1, rc.2, [Effect.ranInstall (pmName pm)])

/-- The error message of the primary variant for a missing `package.json`. -/
def noPkgJsonMsg : String :=
  "No package.json found in the project folder. Is this a valid template-kit copy?"

/-- The dev-server command and argument list the primary `start` spawns. -/
def devCommand (pm : PackageManager) (portStr host : String) : String × List String :=
  match pm with
  | .pnpm => ("pnpm", ["dev", "--", "--port", portStr, "--hostname", host])
  | .yarn => ("yarn", ["dev", "--port", portStr, "--hostname", host])
  | .npm => ("npm", ["run", "dev", "--", "--port", portStr, "--hostname", host])

/-- The phase of the primary `start` after the port is allocated and the
package manager detected: dependency install, spawn, readiness wait.  Every
failure here is caught in the source, so this phase is a total function:
it always produces a snapshot (recorded in the registry) and never rejects. -/
def startRunPhase (env : StartEnv) (opts : PreviewStartOptions) (reg : Registry)
    (key host : String) (inst : Instance) (port : Nat) (pm : PackageManager)
    (effs0 : List Effect) : PreviewStatus × Registry × List Effect :=
  let urlStr := "http://" ++ host ++ ":" ++ toString port
  let inst := { inst with port := some port, url := some urlStr }
  let inst := pushPM inst ("ℹ Using package manager: " ++ pmName pm)
  let autoInstall := opts.autoInstallDeps.getD true
  let step := if autoInstall then ensureDeps env inst pm else (inst, none, [])
  let inst := step.1
  let effs1 := effs0 ++ step.2.2
  match step.2.1 with
  | some msg =>
    let inst := { inst with state := PMState.error, error := some msg }
    let inst := pushPM inst ("✖ Failed to install dependencies: " ++ msg)
    (toStatus inst, setInst reg key inst, effs1)
  | none =>
    let ca := devCommand pm (toString port) host
    let inst := pushPM inst ("▶ " ++ ca.1 ++ " " ++ String.intercalate " " ca.2)
    match env.spawnResult with
    | .error msg =>
      let inst := { inst with state := PMState.error, error := some msg }
      let inst := pushPM inst ("✖ " ++ msg)
      (toStatus inst, setInst reg key inst, effs1)
    | .ok pid =>
      let inst := { inst with proc := some { pid := some pid, killed := false }, pid := some pid }
      let effs2 := effs1 ++ [Effect.spawned ca.1 ca.2]
      if env.ready then
        let inst := { inst with state := PMState.running }
        let inst := pushPM inst ("✅ Preview ready: " ++ urlStr)
        (toStatus inst, setInst reg key inst, effs2)
      else
        let msg := "Preview did not become ready at " ++ urlStr ++ " within 60 seconds."
        let inst := { inst with state := PMState.error, error := some msg }
        let inst := pushPM inst ("✖ " ++ msg)
        (toStatus inst, setInst reg key inst, effs2)

/-- The body of the primary `start` once the instance exists and the
running-live guard did not fire: reset the instance to `starting`, check
`package.json`, kill any stale process, then allocate the port and detect
the package manager — both of which `throw` out of `start` on failure
(there is no surrounding `try`), modelled as `Except.error`. -/
def startPMbody (env : StartEnv) (opts : PreviewStartOptions) (reg : Registry)
    (key host : String) (inst : Instance) :
    Except String (PreviewStatus × Registry × List Effect) :=
  let inst := { inst with state := PMState.starting, host := host
                          error := none, startedAt := some env.now }
  let inst := pushPM inst ("▶ Starting preview for " ++ key)
  if env.hasPackageJson then
    let ks := killStep env.kill inst
    let inst := ks.1
    let preferredPort := opts.port.getD (inst.port.getD 3000)
    match findFreePort env.portFree env.osPort preferredPort with
    | .error e => .error e
    | .ok port =>
      match detectPackageManager env.pmEnv with
      | .error e => .error e
      | .ok pm => .ok (startRunPhase env opts reg key host inst port pm ks.2)
  else
    let inst := { inst with state := PMState.error, error := some noPkgJsonMsg }
    let inst := pushPM inst ("✖ " ++ noPkgJsonMsg)
    .ok (toStatus inst, setInst reg key inst, [])

/-- The running-with-a-live-process guard at the top of `start`. -/
def isRunningLive (inst : Instance) : Bool :=
  decide (inst.state = PMState.running) &&
    (match inst.proc with
     | some proc => !proc.killed
     | none => false)

/-- `start(options)` of the primary `previewManager.ts`: resolve the path;
if the registered instance is `running` with a live process, return its
snapshot unchanged; otherwise create the instance if needed and run the
pipeline.  The result is `Except.error` exactly when the source's `start`
promise rejects. -/
def startPM (env : StartEnv) (opts : PreviewStartOptions) (reg : Registry) :
    Except String (PreviewStatus × Registry × List Effect) :=
  let key := env.resolve opts.projectPath
  let host := opts.host.getD "127.0.0.1"
  match getInst reg key with
  | some inst =>
    if isRunningLive inst then .ok (toStatus inst, reg, [])
    else startPMbody env opts reg key host inst
  | none =>
    let inst : Instance := { projectPath := key, state := PMState.stopped, host := host, logs := [] }
    startPMbody env opts (setInst reg key inst) key host inst

/-- Example environment: `package.json` present, ports free, but none of the
three package-manager executables available. -/
def envNoPm : StartEnv :=
  { resolve := id, now := "2025-01-01T00:00:00.000Z", hasPackageJson := true,
    kill := { termSendOk := true, killSendOk := true }, portFree := fun _ => true,
    osPort := .ok 49152,
    pmEnv := { hasPnpm := false, hasNpm := false, hasYarn := false, lockPnpm := false, lockNpm := false, lockYarn := false },
    hasNodeModules := true, installCmd := { output := [], exit := .ok 0 },
    spawnResult := .ok 77, ready := true }

/-- Example environment: everything available and healthy. -/
def envPkgOk : StartEnv :=
  { envNoPm with
    pmEnv := { hasPnpm := true, hasNpm := true, hasYarn := true, lockPnpm := false, lockNpm := false, lockYarn := false } }

/-- Example environment: healthy tooling but no `package.json` in the
project directory. -/
def envNoPkgJson : StartEnv :=
  { envPkgOk with hasPackageJson := false }

/-! ### Helper lemmas -/

deriving instance DecidableEq for Except

lemma getInst_setInst (reg : Registry) (key : String) (v : Instance) :
    getInst (setInst reg key v) key = some v := by
  induction reg with
  | nil => simp [setInst, getInst]
  | cons hd tl ih =>
    obtain ⟨k, i⟩ := hd
    by_cases hk : k = key
    · simp [setInst, getInst, hk]
    · simp [setInst, getInst, hk, ih]

lemma pushLogList_eq_rtake (cap : Nat) (logs : List String) (line : String) :
    pushLogList cap logs line = (logs ++ [line]).rtake cap := by
  simp only [pushLogList, List.rtake]
  split
  · rfl
  · next h =>
    have h0 : (logs ++ [line]).length - cap = 0 := by omega
    rw [h0, List.drop_zero]

lemma take_append_take {α : Type} (n : Nat) (R L : List α) :
    (R ++ L.take n).take n = (R ++ L).take n := by
  rw [List.take_append_eq_append_take, List.take_append_eq_append_take, List.take_take]
  have hmin : min (n - R.length) n = n - R.length := by omega
  rw [hmin]

lemma rtake_rtake_append (n : Nat) (l r : List String) :
    (l.rtake n ++ r).rtake n = (l ++ r).rtake n := by
  rw [List.rtake_eq_reverse_take_reverse, List.rtake_eq_reverse_take_reverse,
    List.rtake_eq_reverse_take_reverse]
  rw [List.reverse_append, List.reverse_reverse, List.reverse_append]
  rw [take_append_take]

lemma rtake_length (n : Nat) (l : List String) : (l.rtake n).length = min n l.length := by
  simp [List.rtake]
  omega

lemma pushLogList_length_le (cap : Nat) (logs : List String) (line : String)
    (h : logs.length ≤ cap) : (pushLogList cap logs line).length ≤ cap := by
  rw [pushLogList_eq_rtake, rtake_length]
  omega

lemma foldl_pushLogList (cap : Nat) (lines logs : List String) (h : logs.length ≤ cap) :
    List.foldl (pushLogList cap) logs lines = (logs ++ lines).rtake cap := by
  induction lines generalizing logs with
  | nil =>
    simp only [List.foldl_nil, List.append_nil, List.rtake]
    have h0 : logs.length - cap = 0 := by omega
    rw [h0, List.drop_zero]
  | cons a rest ih =>
    rw [List.foldl_cons, ih (pushLogList cap logs a) (pushLogList_length_le cap logs a h)]
    rw [pushLogList_eq_rtake, rtake_rtake_append]
    simp

lemma rtake_suffix (n : Nat) (l : List String) : l.rtake n <:+ l :=
  List.drop_suffix _ _

lemma findFreePort_error (free : Nat → Bool) (osPort : Except String Nat) (pref : Nat)
    (e : String) (h : findFreePort free osPort pref = .error e) : osPort = .error e := by
  unfold findFreePort at h
  cases hs : scanPorts free pref 50 with
  | none => rw [hs] at h; exact h
  | some p => rw [hs] at h; cases h

lemma scanPorts_eq_some (free : Nat → Bool) :
    ∀ (n p i : Nat), i < n → free (p + i) = true → (∀ j, j < i → free (p + j) = false) →
      scanPorts free p n = some (p + i) := by
  intro n
  induction n with
  | zero => intro p i hi; omega
  | succ m ih =>
    intro p i hi hfree hmin
    cases i with
    | zero =>
      simp only [Nat.add_zero] at hfree ⊢
      simp [scanPorts, hfree]
    | succ k =>
      have hp : free p = false := by
        have := hmin 0 (Nat.succ_pos k)
        simpa using this
      simp only [scanPorts, hp, Bool.false_eq_true, if_false]
      have h1 : free (p + 1 + k) = true := by
        have : p + 1 + k = p + (k + 1) := by omega
        rw [this]; exact hfree
      have h2 : ∀ j, j < k → free (p + 1 + j) = false := by
        intro j hj
        have : p + 1 + j = p + (j + 1) := by omega
        rw [this]; exact hmin (j + 1) (by omega)
      have := ih (p + 1) k (by omega) h1 h2
      rw [this]
      congr 1
      omega

lemma scanPorts_eq_none (free : Nat → Bool) :
    ∀ (n p : Nat), (∀ i, i < n → free (p + i) = false) → scanPorts free p n = none := by
  intro n
  induction n with
  | zero => intro p h; rfl
  | succ m ih =>
    intro p h
    have hp : free p = false := by simpa using h 0 (Nat.succ_pos m)
    simp only [scanPorts, hp, Bool.false_eq_true, if_false]
    exact ih (p + 1) (fun i hi => by
      have : p + 1 + i = p + (i + 1) := by omega
      rw [this]; exact h (i + 1) (by omega))

lemma jsSlice_neg_pos (l : List String) (t : Int) (ht : 0 < t) :
    jsSlice l (-t) = l.rtake t.natAbs := by
  unfold jsSlice List.rtake
  rw [if_pos (by omega : -t < 0)]
  rw [Int.natAbs_neg]
  congr 1
  omega

lemma startPMbody_error (env : StartEnv) (opts : PreviewStartOptions) (reg : Registry)
    (key host : String) (inst : Instance) (e : String)
    (h : startPMbody env opts reg key host inst = .error e) :
    detectPackageManager env.pmEnv = .error e ∨ env.osPort = .error e := by
  simp only [startPMbody] at h
  split at h
  · split at h
    · next e1 heq =>
      cases h
      exact Or.inr (findFreePort_error _ _ _ _ heq)
    · next port heq =>
      split at h
      · next e2 heq2 =>
        cases h
        exact Or.inl heq2
      · next pm heq2 => simp at h
  · simp at h

lemma startPM_error (env : StartEnv) (opts : PreviewStartOptions) (reg : Registry)
    (e : String) (h : startPM env opts reg = .error e) :
    detectPackageManager env.pmEnv = .error e ∨ env.osPort = .error e := by
  simp only [startPM] at h
  split at h
  · next inst heq =>
    split at h
    · simp at h
    · exact startPMbody_error _ _ _ _ _ _ _ h
  · exact startPMbody_error _ _ _ _ _ _ _ h

lemma waitLoopOL_no_response (exitedAt probe : Nat → Bool) (dur : Nat → Nat)
    (timeoutMs : Nat) (h : ∀ i, probe i = false) :
    ∀ (fuel i t : Nat), waitLoopOL exitedAt probe dur timeoutMs fuel i t = false := by
  intro fuel
  induction fuel with
  | zero => intro i t; rfl
  | succ n ih =>
    intro i t
    by_cases ht : t < timeoutMs
    · by_cases he : exitedAt i = true
      · simp [waitLoopOL, ht, he]
      · simp [waitLoopOL, ht, he, h i, ih]
    · simp [waitLoopOL, ht]

/-! ### Claims -/

/-- C5 (confirmed): for every canonical project path `p` with no registered
instance, `status(p)` returns exactly the snapshot with `projectPath = p` and
`state = stopped` and every other field absent.  `statusPM` is a pure
function of the in-memory registry: its inputs contain no file-system or
network component, so the call cannot block or touch the outside world. -/
theorem c5_status_default (reg : Registry) (resolve : String → String) (p : String)
    (hnone : getInst reg (resolve p) = none) (hcanon : resolve p = p) :
    statusPM reg resolve p = { projectPath := p, state := PMState.stopped } := by
  have hn2 : getInst reg p = none := hcanon ▸ hnone
  simp only [statusPM, hcanon, hn2]

/-- Witness for C5: the empty registry and an identity resolver. -/
theorem c5_status_default_witness :
    statusPM [] id "/projects/demo" =
      { projectPath := "/projects/demo", state := PMState.stopped } :=
  c5_status_default [] id "/projects/demo" rfl rfl

/-- C6 (confirmed): `detectPackageManager` equals the spec description — the
first available manager in `lockfile preference list ++ [pnpm, npm, yarn]`,
with the preference list built in pnpm > npm > yarn order from the lockfiles
present, and a fatal error exactly when none of the three executables is
available; in particular a project with only `yarn.lock`, with yarn and npm
available but not pnpm, resolves to yarn. -/
theorem c6_detect_package_manager :
    (∀ e : PMEnv, detectPackageManager e = detectPackageManagerSpec e) ∧
    detectPackageManager
      { hasPnpm := false, hasNpm := true, hasYarn := true,
        lockPnpm := false, lockNpm := false, lockYarn := true } = .ok PackageManager.yarn ∧
    (∀ e : PMEnv, e.hasPnpm = false → e.hasNpm = false → e.hasYarn = false →
      detectPackageManager e = .error noPmMsg) := by
  refine ⟨?_, rfl, ?_⟩
  · intro e
    obtain ⟨a, b, c, d, f, g⟩ := e
    revert a b c d f g
    decide
  · intro e h1 h2 h3
    obtain ⟨a, b, c, d, f, g⟩ := e
    simp only at h1 h2 h3
    subst h1; subst h2; subst h3
    revert d f g
    decide

/-- Witness for C6: no lockfile, no executable available — fatal. -/
theorem c6_detect_package_manager_witness :
    detectPackageManager
      { hasPnpm := false, hasNpm := false, hasYarn := false,
        lockPnpm := false, lockNpm := false, lockYarn := false } = .error noPmMsg :=
  c6_detect_package_manager.2.2 _ rfl rfl rfl

/-- C7 (confirmed): `findFreePort` scans `preferred ..= preferred+49` in
ascending order and returns the first free port; when the whole range is
occupied it returns whatever the OS-assigned bind-to-0 fallback produced, so
it fails exactly when that fallback itself fails; and with 3000..3010
occupied and everything from 3011 free, `findFreePort(host, 3000)` returns
3011. -/
theorem c7_find_free_port :
    (∀ (free : Nat → Bool) (osPort : Except String Nat) (pref i : Nat),
      i < 50 → free (pref + i) = true → (∀ j, j < i → free (pref + j) = false) →
      findFreePort free osPort pref = .ok (pref + i)) ∧
    (∀ (free : Nat → Bool) (osPort : Except String Nat) (pref : Nat),
      (∀ i, i < 50 → free (pref + i) = false) → findFreePort free osPort pref = osPort) ∧
    findFreePort (fun p => decide (3011 ≤ p)) (.ok 50000) 3000 = .ok 3011 ∧
    findFreePort (fun _ => false) (.ok 49152) 3000 = .ok 49152 ∧
    findFreePort (fun _ => false) (.error "listen EADDRNOTAVAIL") 3000 =
      .error "listen EADDRNOTAVAIL" := by
  refine ⟨?_, ?_, by decide, by decide, by decide⟩
  · intro free osPort pref i hi hfree hmin
    unfold findFreePort
    rw [scanPorts_eq_some free 50 pref i hi hfree hmin]
  · intro free osPort pref h
    unfold findFreePort
    rw [scanPorts_eq_none free 50 pref h]

/-- Witness for C7: the spec scenario, derived through the theorem. -/
theorem c7_find_free_port_witness :
    findFreePort (fun p => decide (3011 ≤ p)) (.error "x") 3000 = .ok 3011 := by
  have h := c7_find_free_port.1 (fun p => decide (3011 ≤ p)) (.error "x") 3000 11
    (by decide) (by decide) (by decide)
  simpa using h

/-- C9 (confirmed): the per-instance log buffer is a bounded ring.  Starting
from any buffer within capacity, appending any sequence of lines leaves
exactly `min cap total` lines, namely the final (`rtake`) segment of the
appended sequence — the most recent lines, oldest discarded first, relative
order preserved (the result is a suffix of the full append).  The capacities
of the three variants are 400, 900 and 800 lines. -/
theorem c9_log_ring_buffer (cap : Nat) (logs lines : List String)
    (h : logs.length ≤ cap) :
    List.foldl (pushLogList cap) logs lines = (logs ++ lines).rtake cap ∧
    (List.foldl (pushLogList cap) logs lines).length = min cap (logs ++ lines).length ∧
    List.foldl (pushLogList cap) logs lines <:+ logs ++ lines ∧
    MAX_LOG_LINES_PM = 400 ∧ MAX_LOG_LINES_PM2 = 900 ∧ MAX_LOG_LINES_OL = 800 := by
  have hfold := foldl_pushLogList cap lines logs h
  refine ⟨hfold, ?_, ?_, rfl, rfl, rfl⟩
  · rw [hfold, rtake_length]
  · rw [hfold]; exact rtake_suffix cap (logs ++ lines)

/-- Witness for C9: capacity 3, five lines appended — the last three remain
in order. -/
theorem c9_log_ring_buffer_witness :
    List.foldl (pushLogList 3) [] ["l1", "l2", "l3", "l4", "l5"] =
      (([] ++ ["l1", "l2", "l3", "l4", "l5"] : List String)).rtake 3 :=
  (c9_log_ring_buffer 3 [] ["l1", "l2", "l3", "l4", "l5"] (by decide)).1

/-- C10 counterexample: the `logs` variant at `previewManager.ts` lines
787-793 has no `tail <= 0` guard, so `logs(p, tail := 0)` returns the whole
buffer (`slice(-0) = slice(0)`), not the empty list the claim requires. -/
theorem c10_counterexample :
    logsPM2
      [("/p", { projectPath := "/p", state := PMState.running, host := "127.0.0.1", logs := ["a", "b"] })]
      id "/p" (some 0) = ["a", "b"] ∧
    (["a", "b"] : List String) ≠ [] := by
  exact ⟨rfl, by simp⟩

/-- C10 (amended): all three `logs` variants return `[]` for an unregistered
path; for a registered instance and `tail = t > 0` the guarded variants
(primary `previewManager.ts` and `ollama.ts`) return the last
`min(t, length)` buffered lines in buffer order, and return `[]` for
`t ≤ 0`; the unguarded second `previewManager.ts` variant instead returns
the whole buffer at `t = 0` and drops the first `|t|` lines for `t < 0`.
All three are pure functions of the registry, so the call cannot throw and
leaves every instance unchanged. -/
theorem c10_logs (reg : Registry) (resolve : String → String) (p : String)
    (inst : Instance) (t : Int) :
    (getInst reg (resolve p) = none →
      logsPM reg resolve p (some t) = [] ∧ logsPM2 reg resolve p (some t) = [] ∧
      logsOL reg resolve p (some t) = []) ∧
    (getInst reg (resolve p) = some inst →
      (0 < t →
        logsPM reg resolve p (some t) = inst.logs.rtake t.natAbs ∧
        logsOL reg resolve p (some t) = inst.logs.rtake t.natAbs ∧
        (logsPM reg resolve p (some t)).length = min t.natAbs inst.logs.length) ∧
      (t ≤ 0 →
        logsPM reg resolve p (some t) = [] ∧ logsOL reg resolve p (some t) = []) ∧
      logsPM2 reg resolve p (some 0) = inst.logs ∧
      (t < 0 →
        logsPM2 reg resolve p (some t) =
          inst.logs.drop (min (-t).toNat inst.logs.length))) := by
  constructor
  · intro h
    simp [logsPM, logsPM2, logsOL, h]
  · intro h
    refine ⟨?_, ?_, ?_, ?_⟩
    · intro ht
      have hne : ¬ t ≤ 0 := by omega
      refine ⟨?_, ?_, ?_⟩
      · simp only [logsPM, h, Option.getD_some]
        rw [if_neg hne, jsSlice_neg_pos _ t ht]
      · simp only [logsOL, h, Option.getD_some]
        rw [if_neg hne, jsSlice_neg_pos _ t ht]
      · simp only [logsPM, h, Option.getD_some]
        rw [if_neg hne, jsSlice_neg_pos _ t ht, rtake_length]
    · intro ht
      constructor
      · simp [logsPM, h, ht]
      · simp [logsOL, h, ht]
    · simp only [logsPM2, h, Option.getD_some]
      unfold jsSlice
      norm_num
    · intro ht
      simp only [logsPM2, h, Option.getD_some]
      unfold jsSlice
      rw [if_neg (by omega : ¬ -t < 0)]

/-- Witness for C10: a registered two-line buffer, `tail = 1` returns the
last line for the guarded variants. -/
theorem c10_logs_witness :
    logsPM
      [("/p", { projectPath := "/p", state := PMState.running, host := "127.0.0.1", logs := ["a", "b"] })]
      id "/p" (some 1) =
      (["a", "b"] : List String).rtake (1 : Int).natAbs :=
  ((c10_logs
      [("/p", { projectPath := "/p", state := PMState.running, host := "127.0.0.1", logs := ["a", "b"] })]
      id "/p"
      { projectPath := "/p", state := PMState.running, host := "127.0.0.1", logs := ["a", "b"] }
      1).2 rfl).1 (by omega) |>.1

/-- C3 counterexample: the exit listener of the primary `previewManager.ts`
(lines 371-377), fired while the instance is `starting`, moves the state to
`stopped` — not `error` — and stores no error message at all. -/
theorem c3_counterexample :
    (exitListenerPM (some 1) none
      { projectPath := "/p", state := PMState.starting, host := "127.0.0.1" }).state =
      PMState.stopped ∧
    (exitListenerPM (some 1) none
      { projectPath := "/p", state := PMState.starting, host := "127.0.0.1" }).error = none ∧
    PMState.stopped ≠ PMState.error := by
  refine ⟨rfl, rfl, by decide⟩

/-- C3 (amended): when the dev-server process exits while the state is
`starting` or `running`, the three registered exit listeners behave
differently: the primary `previewManager.ts` listener moves the state to
`stopped` (appending a log line embedding code/signal, leaving `error`
untouched); the second `previewManager.ts` listener moves the state to
`error` with a message embedding exit code/signal plus the tail of the last
120 log lines; the `ollama.ts` listener moves the state to `error` with a
message embedding exit code/signal but no log tail. -/
theorem c3_exit_listener (inst : Instance) (code : Option Int) (signal : Option String)
    (h : inst.state = PMState.starting ∨ inst.state = PMState.running) :
    (exitListenerPM code signal inst).state = PMState.stopped ∧
    (exitListenerPM code signal inst).error = inst.error ∧
    (exitListenerPM2 code signal inst).state = PMState.error ∧
    (exitListenerPM2 code signal inst).exited = true ∧
    (exitListenerPM2 code signal inst).error =
      some ("Preview server exited early (code=" ++ codeStr code ++ " signal=" ++
        sigStr signal ++ ").\n\nLast logs:\n" ++
        String.intercalate "\n" (inst.logs.rtake 120)) ∧
    (exitListenerOL code signal inst).state = PMState.error ∧
    (exitListenerOL code signal inst).exited = true ∧
    (exitListenerOL code signal inst).error =
      some ("Preview server exited early (code=" ++ codeStr code ++ " signal=" ++
        sigStr signal ++ ").") := by
  rcases h with h | h <;>
    exact ⟨by simp [exitListenerPM, pushPM, h], by simp [exitListenerPM, pushPM, h],
      rfl, rfl, rfl,
      by simp [exitListenerOL, pushOL, h], by simp [exitListenerOL, pushOL, h],
      by simp [exitListenerOL, pushOL, h]⟩

/-- Witness for C3 (amended): a concrete starting instance. -/
theorem c3_exit_listener_witness :
    (exitListenerOL (some 1) none
      { projectPath := "/p", state := PMState.starting, host := "127.0.0.1" }).state =
      PMState.error :=
  (c3_exit_listener
    { projectPath := "/p", state := PMState.starting, host := "127.0.0.1" }
    (some 1) none (Or.inl rfl)).2.2.2.2.2.1

/-- C4 counterexample: `stop` on a registered instance that has no live
process (here: a previous `error` state with no process handle) sends no
signal at all (empty effect trace) and still returns `true` — so `true` is
returned even though nothing was stopped, and the claimed unconditional
SIGTERM does not happen. -/
theorem c4_counterexample :
    (stopPM { termSendOk := true, killSendOk := true } id
      [("/p", { projectPath := "/p", state := PMState.error, host := "127.0.0.1", error := some "boom" })]
      "/p").1 = true ∧
    (stopPM { termSendOk := true, killSendOk := true } id
      [("/p", { projectPath := "/p", state := PMState.error, host := "127.0.0.1", error := some "boom" })]
      "/p").2.2 = [] := by
  exact ⟨rfl, rfl⟩

/-- C4 (amended): `stop(p)` returns `false` and does nothing when no
instance is registered; otherwise it returns `true` exactly when an
instance is registered (even if no process was running), always sets the
state to `stopped` and clears `error`; and only when a live (not yet
signalled) process handle exists does it run the kill sequence: SIGTERM,
the fixed 1.5 s grace wait (1.6 s in the other variants), then SIGKILL
exactly when the handle's `killed` flag is still unset (i.e. the SIGTERM
send failed — the flag records signal delivery, not process exit), and
clears the process handle and pid. -/
theorem c4_stop (e : KillEnv) (resolve : String → String) (reg : Registry) (p : String) :
    (getInst reg (resolve p) = none → stopPM e resolve reg p = (false, reg, [])) ∧
    (∀ inst, getInst reg (resolve p) = some inst →
      (stopPM e resolve reg p).1 = true ∧
      (∃ inst2, getInst (stopPM e resolve reg p).2.1 (resolve p) = some inst2 ∧
        inst2.state = PMState.stopped ∧ inst2.error = none) ∧
      (∀ proc, inst.proc = some proc → proc.killed = false →
        (stopPM e resolve reg p).2.2 =
          (if e.termSendOk then [Effect.sigterm, Effect.graceWait STOP_GRACE_MS_PM]
           else [Effect.sigterm, Effect.graceWait STOP_GRACE_MS_PM, Effect.sigkill]) ∧
        ∃ inst2, getInst (stopPM e resolve reg p).2.1 (resolve p) = some inst2 ∧
          inst2.proc = none ∧ inst2.pid = none)) ∧
    STOP_GRACE_MS_PM = 1500 ∧ STOP_GRACE_MS_OL = 1600 := by
  refine ⟨?_, ?_, rfl, rfl⟩
  · intro h
    simp [stopPM, h]
  · intro inst h
    refine ⟨?_, ?_, ?_⟩
    · simp [stopPM, h]
    · simp only [stopPM, h]
      refine ⟨_, getInst_setInst _ _ _, ?_, ?_⟩ <;> simp [pushPM]
    · intro proc hp hk
      constructor
      · obtain ⟨ts, ks⟩ := e
        cases ts <;> cases ks <;>
          simp [stopPM, h, killStep, hp, hk, killProcessTree]
      · simp only [stopPM, h, killStep, hp, hk]
        refine ⟨_, getInst_setInst _ _ _, ?_, ?_⟩ <;> simp [pushPM]

/-- Witness for C4 (amended): a registered running instance with a live
process handle — stop returns true, the state becomes `stopped`. -/
theorem c4_stop_witness :
    (stopPM { termSendOk := true, killSendOk := true } id
      [("/p", { projectPath := "/p", state := PMState.running, host := "127.0.0.1", proc := some { pid := some 42, killed := false }, pid := some 42 })]
      "/p").1 = true :=
  (((c4_stop { termSendOk := true, killSendOk := true } id
      [("/p", { projectPath := "/p", state := PMState.running, host := "127.0.0.1", proc := some { pid := some 42, killed := false }, pid := some 42 })]
      "/p").2.1)
    { projectPath := "/p", state := PMState.running, host := "127.0.0.1", proc := some { pid := some 42, killed := false }, pid := some 42 }
    rfl).1

/-- C2 (confirmed): if `start(p)` is called while the registered instance
for `p` is `running` with a live (not-killed) process handle, `start`
resolves to the current snapshot — same pid, port, url — with the registry
returned unchanged and an empty effect trace: no second spawn, no kill, no
log append, no state write. -/
theorem c2_start_idempotent (env : StartEnv) (opts : PreviewStartOptions) (reg : Registry)
    (inst : Instance) (proc : ChildProc)
    (h1 : getInst reg (env.resolve opts.projectPath) = some inst)
    (h2 : inst.state = PMState.running)
    (h3 : inst.proc = some proc)
    (h4 : proc.killed = false) :
    startPM env opts reg = .ok (toStatus inst, reg, []) ∧
    (toStatus inst).pid = inst.pid ∧ (toStatus inst).port = inst.port ∧
    (toStatus inst).url = inst.url := by
  have hlive : isRunningLive inst = true := by
    simp [isRunningLive, h2, h3, h4]
  refine ⟨?_, rfl, rfl, rfl⟩
  simp [startPM, h1, hlive]

/-- Witness for C2: a concrete running instance with a live handle. -/
theorem c2_start_idempotent_witness :
    startPM envPkgOk { projectPath := "/p" }
      [("/p", { projectPath := "/p", state := PMState.running, host := "127.0.0.1", port := some 3000, url := some "http://127.0.0.1:3000", pid := some 42, startedAt := some "s", proc := some { pid := some 42, killed := false }, logs := ["ready"] })] =
      .ok (toStatus { projectPath := "/p", state := PMState.running, host := "127.0.0.1", port := some 3000, url := some "http://127.0.0.1:3000", pid := some 42, startedAt := some "s", proc := some { pid := some 42, killed := false }, logs := ["ready"] },
        [("/p", { projectPath := "/p", state := PMState.running, host := "127.0.0.1", port := some 3000, url := some "http://127.0.0.1:3000", pid := some 42, startedAt := some "s", proc := some { pid := some 42, killed := false }, logs := ["ready"] })], []) :=
  (c2_start_idempotent envPkgOk { projectPath := "/p" }
    [("/p", { projectPath := "/p", state := PMState.running, host := "127.0.0.1", port := some 3000, url := some "http://127.0.0.1:3000", pid := some 42, startedAt := some "s", proc := some { pid := some 42, killed := false }, logs := ["ready"] })]
    { projectPath := "/p", state := PMState.running, host := "127.0.0.1", port := some 3000, url := some "http://127.0.0.1:3000", pid := some 42, startedAt := some "s", proc := some { pid := some 42, killed := false }, logs := ["ready"] }
    { pid := some 42, killed := false } rfl rfl rfl rfl).1

/-- C1 counterexample: with `package.json` present, free ports, but no
package-manager executable available, the `start` promise REJECTS (the
`detectPackageManager` throw is not caught inside `start`), instead of
resolving to an `error` snapshot as the claim requires. -/
theorem c1_counterexample :
    startPM envNoPm { projectPath := "/p" } [] = .error noPmMsg := by
  rfl

/-- C1 (amended): `start` resolves to a snapshot in every case except two —
a `detectPackageManager` failure (no package manager found) and a port
allocation whose OS-assigned fallback fails — which propagate as
rejections; in particular whenever a package manager is available and the
OS port fallback works, `start` always resolves, and a missing
`package.json` resolves (never rejects) with `state = error` and the
diagnostic message. -/
theorem c1_start_resolution (env : StartEnv) (opts : PreviewStartOptions) (reg : Registry) :
    (∀ e, startPM env opts reg = .error e →
      detectPackageManager env.pmEnv = .error e ∨ env.osPort = .error e) ∧
    ((∃ pm, detectPackageManager env.pmEnv = .ok pm) → (∃ n, env.osPort = .ok n) →
      ∃ r, startPM env opts reg = .ok r) ∧
    ((startPM envNoPkgJson { projectPath := "/p" } []).toOption.map
      (fun r => (r.1.state, r.1.error))) = some (PMState.error, some noPkgJsonMsg) := by
  refine ⟨?_, ?_, rfl⟩
  · intro e h
    exact startPM_error env opts reg e h
  · intro hpm hos
    cases hres : startPM env opts reg with
    | ok r => exact ⟨r, rfl⟩
    | error e =>
      rcases startPM_error env opts reg e hres with hd | ho
      · obtain ⟨pm, hpm⟩ := hpm
        rw [hpm] at hd
        cases hd
      · obtain ⟨n, hos⟩ := hos
        rw [hos] at ho
        cases ho

/-- Witness for C1 (amended): a healthy environment — `start` resolves. -/
theorem c1_start_resolution_witness :
    ∃ r, startPM envPkgOk { projectPath := "/p" } [] = .ok r :=
  (c1_start_resolution envPkgOk { projectPath := "/p" } []).2.1
    ⟨PackageManager.pnpm, rfl⟩ ⟨49152, rfl⟩

/-- C8 counterexample: the `waitForServerReady` of the primary
`previewManager.ts` (lines 166-176, a source the claim covers) uses a
2000 ms per-attempt probe timeout, a 500 ms inter-attempt delay and a
60 s overall timeout — not the claimed 2500 ms / 650 ms / 180 s — and its
loop consults no `exited` flag at all (its probe loop returns `true` on a
responding probe no matter what the owning instance's process did). -/
theorem c8_counterexample :
    HTTP_PROBE_TIMEOUT_PM = 2000 ∧ READY_DELAY_PM = 500 ∧
    DEFAULT_READY_TIMEOUT_PM = 60000 ∧
    ¬(HTTP_PROBE_TIMEOUT_PM = 2500) ∧ ¬(READY_DELAY_PM = 650) ∧
    ¬(DEFAULT_READY_TIMEOUT_PM = 180000) ∧
    waitForServerReadyPM (fun _ => true) (fun _ => 0) = true := by
  refine ⟨rfl, rfl, rfl, by decide, by decide, by decide, ?_⟩
  simp [waitForServerReadyPM, waitLoopPM, DEFAULT_READY_TIMEOUT_PM]

/-- C8 (amended): the `ollama.ts` `waitForServerReady` (2500 ms per-attempt
probe timeout, 650 ms delay, default 180 s overall timeout) checks the
owning instance's `exited` flag each iteration and returns `false` when it
is set; it returns `true` on the first probe that gets any HTTP response
(any status code — `httpProbeResult` is `true` on every `response s`);
it returns `false` when no probe ever responds (timeout), and the probe
itself is a total function — connection refused/reset or a per-attempt
timeout yield `false`, never an exception.  The primary `previewManager.ts`
variant instead uses 2000 ms / 500 ms / 60 s and consults no exited flag. -/
theorem c8_wait_ready :
    (∀ (exitedAt probe : Nat → Bool) (dur : Nat → Nat),
      exitedAt 0 = true → waitForServerReadyOL exitedAt probe dur = false) ∧
    (∀ (exitedAt probe : Nat → Bool) (dur : Nat → Nat),
      exitedAt 0 = false → probe 0 = true → waitForServerReadyOL exitedAt probe dur = true) ∧
    (∀ (exitedAt probe : Nat → Bool) (dur : Nat → Nat),
      (∀ i, probe i = false) → waitForServerReadyOL exitedAt probe dur = false) ∧
    (∀ s, httpProbeResult (.response s) = true) ∧
    httpProbeResult .timedOut = false ∧ httpProbeResult .connRefused = false ∧
    httpProbeResult .invalidUrl = false ∧
    (DEFAULT_READY_TIMEOUT_OL = 180000 ∧ READY_DELAY_OL = 650 ∧
      HTTP_PROBE_TIMEOUT_OL = 2500) ∧
    (DEFAULT_READY_TIMEOUT_PM = 60000 ∧ READY_DELAY_PM = 500 ∧
      HTTP_PROBE_TIMEOUT_PM = 2000 ∧
      ∀ (probe : Nat → Bool) (dur : Nat → Nat), probe 0 = true →
        waitForServerReadyPM probe dur = true) := by
  refine ⟨?_, ?_, ?_, fun s => rfl, rfl, rfl, rfl, ⟨rfl, rfl, rfl⟩, rfl, rfl, rfl, ?_⟩
  · intro exitedAt probe dur h
    simp [waitForServerReadyOL, waitLoopOL, DEFAULT_READY_TIMEOUT_OL, h]
  · intro exitedAt probe dur h1 h2
    simp [waitForServerReadyOL, waitLoopOL, DEFAULT_READY_TIMEOUT_OL, h1, h2]
  · intro exitedAt probe dur h
    exact waitLoopOL_no_response exitedAt probe dur _ h _ 0 0
  · intro probe dur hp
    simp [waitForServerReadyPM, waitLoopPM, DEFAULT_READY_TIMEOUT_PM, hp]

/-- Witness for C8 (amended): a process flagged exited from the first
iteration makes the `ollama.ts` loop return `false`. -/
theorem c8_wait_ready_witness :
    waitForServerReadyOL (fun _ => true) (fun _ => false) (fun _ => 0) = false :=
  c8_wait_ready.1 (fun _ => true) (fun _ => false) (fun _ => 0) rfl

end Vorbyte
